import Mathlib

/-!
Verification of the enrichment/merge engine of `pinup_popper_database_exporter`
(`app/services/export_service.py`, with `app/utils/utils.py` and
`app/exceptions/custom_exceptions.py`).

The Python code is shallowly embedded:
* rows are `List String`; Python's `None`/absent values become `Option`/`""`
  following the code's own `x or ""` normalisations;
* Python `str.strip`/`lstrip`/`rstrip`/`lower`, substring tests and string
  comparison are modelled directly on `List Char` (`pyStrip`, `pyLower`,
  `listContains`, `pyStrLt`), matching CPython's code-point semantics;
* Python dicts used only through `get`/item assignment are association lists
  whose `dictGet` returns the most recently inserted binding (last-write-wins);
* `sorted(data, key=key)` (a stable sort by a lexicographic 4-tuple) is
  `List.insertionSort` by the decidable total preorder `rowLe`, which is also
  stable;
* the loosely typed `vpsdb.json` records are typed records (`Game`,
  `TableFile`) whose fields hold the values after the indexing boundary's
  `isinstance` coercions, with `JScalar` keeping the number-or-string-or-null
  distinction the code branches on;
* filesystem effects of `generate_output_csv` are explicit state passing over
  `FS`; a raised `DataValidationError` is the `some`-error component of the
  result, and the file-write procedures are modelled by the sequence of
  destination-file contents a concurrent reader could observe.
-/

/-! ## Python string primitives -/

/-- Python `str.strip()` on the character list: drop whitespace from both ends. -/
def stripChars (l : List Char) : List Char :=
  ((l.dropWhile Char.isWhitespace).reverse.dropWhile Char.isWhitespace).reverse

/-- Python `s.strip()`. -/
def pyStrip (s : String) : String :=
  String.mk (stripChars s.data)

/-- Python `s.lstrip()`. -/
def pyLStrip (s : String) : String :=
  String.mk (s.data.dropWhile Char.isWhitespace)

/-- Python `s.rstrip()`. -/
def pyRStrip (s : String) : String :=
  String.mk ((s.data.reverse.dropWhile Char.isWhitespace).reverse)

/-- Python `s.lower()` (ASCII case folding, as used by the code's inputs). -/
def pyLower (s : String) : String :=
  String.mk (s.data.map Char.toLower)

/-- Python `needle in hay` for strings: contiguous substring test. -/
def listContains (needle : List Char) : List Char → Bool
  | [] => needle.isEmpty
  | c :: rest => needle.isPrefixOf (c :: rest) || listContains needle rest

/-- Python `needle in hay` on `String`. -/
def strContains (hay needle : String) : Bool :=
  listContains needle.data hay.data

/-- Python `s.startswith(pre)`. -/
def strStartsWith (s pre : String) : Bool :=
  pre.data.isPrefixOf s.data

/-- Python string `<`: lexicographic comparison of code points. -/
def pyStrLtL : List Char → List Char → Bool
  | _, [] => false
  | [], _ :: _ => true
  | a :: as, b :: bs => a.toNat < b.toNat || (a.toNat == b.toNat && pyStrLtL as bs)

/-- Python `s < t` on `String`. -/
def pyStrLt (s t : String) : Bool :=
  pyStrLtL s.data t.data

/-! ## Regexes and column schemas (export_service.py lines 16-27) -/

/-- One character of the class `[A-Za-z0-9_-]`. -/
def isVpsIdChar (c : Char) : Bool :=
  c.isAlphanum || c == '_' || c == '-'

/-- `VPS_ID_RE = ^[A-Za-z0-9_-]{8,}$` (full match, as applied to stripped fields). -/
def VPS_ID_RE (s : String) : Bool :=
  decide (8 ≤ s.data.length) && s.data.all isVpsIdChar

/-- `YEAR_RE = ^\d{4}$` (full match, as applied to stripped fields). -/
def YEAR_RE (s : String) : Bool :=
  s.data.length == 4 && s.data.all Char.isDigit

/-- The 17 base columns of the template CSV. -/
def BASE_COLUMNS : List String :=
  ["GameFileName", "GameName", "Manufact", "GameYear", "NumPlayers", "GameType", "Category",
   "GameTheme", "WebLinkURL", "IPDBNum", "AltRunMode", "DesignedBy", "Author", "GAMEVER", "Rom",
   "Tags", "VPS-ID"]

/-- The 20 output columns. -/
def OUT_COLUMNS : List String :=
  ["GameFileName", "GameName", "Manufact", "GameYear", "NumPlayers", "GameType", "Category",
   "GameTheme", "WebLinkURL", "WebLink2URL", "IPDBNum", "AltRunMode", "DesignedBy", "Author",
   "GAMEVER", "Rom", "Tags", "VPS-ID", "WebGameID", "MasterID"]

/-- `WEBLINK2_BASE` constant. -/
def WEBLINK2_BASE : String :=
  "https://virtualpinballspreadsheet.github.io/tables"

/-! ## Row Repair (`_repair_template_row`, lines 64-98) -/

/-- Case A of `_repair_template_row` (lines 70-74): an 18-column row where the
manufacturer absorbed a comma-split continuation — rejoin fields 2 and 3 with
`", "` and delete field 3. -/
def _repair_caseA (row : List String) : List String :=
  if row.length = BASE_COLUMNS.length + 1 ∧
      YEAR_RE (pyStrip ((row[3]?).getD "")) = false ∧
      YEAR_RE (pyStrip ((row[4]?).getD "")) = true then
    row.take 2 ++ [pyRStrip ((row[2]?).getD "") ++ ", " ++ pyLStrip ((row[3]?).getD "")]
      ++ row.drop 4
  else
    row

/-- One iteration of the `for tok in extras[:-1]` loop of case B (lines 85-88):
strip the token and, when non-empty, append it to the accumulated tags with a
single separating space. -/
def _fold_tag_token (shifted tok : String) : String :=
  let t := pyStrip tok
  if t = "" then shifted
  else if shifted = "" then t
  else pyStrip (shifted ++ " " ++ t)

/-- Case B of `_repair_template_row` (lines 76-92): more than 17 columns — fold
the extras (and a non-identifier field 16) into `Tags` and keep the last extra,
if it is a valid identifier, as `VPS-ID`; otherwise reject. -/
def _repair_caseB (row : List String) : Option (List String) :=
  if BASE_COLUMNS.length < row.length then
    let extras := row.drop BASE_COLUMNS.length
    let row17 := row.take BASE_COLUMNS.length
    let cand := pyStrip (extras.getLastD "")
    if VPS_ID_RE cand then
      let tags0 := pyStrip ((row17[15]?).getD "")
      let f16 := pyStrip ((row17[16]?).getD "")
      let shifted0 :=
        if f16 ≠ "" ∧ VPS_ID_RE f16 = false then
          if tags0 ≠ "" then pyStrip (tags0 ++ " " ++ f16) else f16
        else tags0
      let shifted := extras.dropLast.foldl _fold_tag_token shifted0
      some ((row17.set 15 shifted).set 16 cand)
    else
      none
  else
    some row

/-- `_repair_template_row` (lines 64-98): repair known malformations to ensure
17 base fields; `none` means the row is dropped. -/
def _repair_template_row (row : List String) : Option (List String) :=
  if row.length < BASE_COLUMNS.length then none
  else
    match _repair_caseB (_repair_caseA row) with
    | none => none
    | some r =>
        if r.length = BASE_COLUMNS.length ∧ VPS_ID_RE (pyStrip ((r[16]?).getD "")) = true then
          some r
        else none

/-! ## Metadata model (`vpsdb.json` records after the indexing boundary) -/

/-- A JSON scalar that the code inspects with `isinstance` (number / string /
null). -/
inductive JScalar where
  | null
  | num (n : Int)
  | str (s : String)
deriving DecidableEq

/-- Coercion used for `year` and `players`: numbers via `str(int(x))`, strings
verbatim, `None` to `""` (lines 131-133). -/
def jscalarToStr : JScalar → String
  | .null => ""
  | .num n => toString n
  | .str s => s

/-- A JSON value that is either a list of strings or a scalar; the code
branches on `isinstance(x, list)`.  A JSON `null` scalar is `single ""`,
matching the code's `x or ""` fallback. -/
inductive StrListOrScalar where
  | items (l : List String)
  | single (s : String)
deriving DecidableEq

/-- One `tableFiles` entry after the indexing boundary's coercions: absent
string fields are `""` (the code reads them with `tf.get(k) or ""`), `authors`
is already coerced (a lone string becomes a one-element list, non-strings are
dropped), `features` keeps its string elements, and `createdAt` is the numeric
value or `0`. -/
structure TableFile where
  id : String
  gameId : String
  edition : String
  gameFileName : String
  authors : List String
  version : String
  features : List String
  createdAt : Int
deriving DecidableEq

/-- One game entry of `vpsdb.json` (non-dict entries, which the code skips,
are not represented). `gtype` models the JSON key `type`. -/
structure Game where
  id : String
  name : String
  manufacturer : String
  year : JScalar
  players : JScalar
  gtype : String
  theme : StrListOrScalar
  designers : StrListOrScalar
  ipdbUrl : String
  tableFiles : List TableFile
deriving DecidableEq

/-- `_norm_weblink` (lines 31-40): keep only IPDB links; drop placeholders and
non-IPDB sources. -/
def _norm_weblink (url : String) : String :=
  if url = "" then ""
  else
    let u := pyStrip url
    if pyLower u = "not available" ∨ pyLower u = "n/a" ∨ pyLower u = "na" ∨ pyLower u = "none"
    then ""
    else if strContains (pyLower u) "ipdb.org" = false then ""
    else u

/-- Scanner for `_parse_ipdb_num`'s regex `(?:id=|machine\.cgi\?id=)(\d+)`:
the digit run after the leftmost `id=` that is followed by a digit.  (Any
occurrence of `machine.cgi?id=` followed by a digit contains `id=` at its end,
so the first alternative alone yields the same captured digits.) -/
def findIdNum : List Char → List Char
  | [] => []
  | c :: rest =>
    if (['i', 'd', '='].isPrefixOf (c :: rest) &&
        (match rest.drop 2 with
         | d :: _ => d.isDigit
         | [] => false)) then
      (rest.drop 2).takeWhile Char.isDigit
    else
      findIdNum rest

/-- `_parse_ipdb_num` (lines 42-47): extract the numeric machine id from an
IPDB URL, or `""`. -/
def _parse_ipdb_num (ipdb_url : String) : String :=
  if ipdb_url = "" then "" else String.mk (findIdNum ipdb_url.data)

/-- `_excluded_feature` (lines 49-52): noisy feature tags. -/
def _excluded_feature (feature : String) : Bool :=
  let f := pyStrip feature
  strStartsWith (pyLower f) "incl." || f == "no ROM"

/-- `_weblink2` (lines 54-58). -/
def _weblink2 (master_id vps_id : String) : String :=
  if master_id = "" ∨ vps_id = "" then ""
  else WEBLINK2_BASE ++ "?game=" ++ master_id ++ "&fileType=tables&fileId=" ++ vps_id

/-- `_sanitize_filename_part` (lines 60-62): `s.replace("/", "_")`. -/
def _sanitize_filename_part (s : String) : String :=
  String.mk (s.data.map fun c => if c = '/' then '_' else c)

/-- Python `edition.lower() in base_name.lower()`. -/
def containsCI (hay needle : String) : Bool :=
  strContains (pyLower hay) (pyLower needle)

/-- The `TableCtx` dataclass (lines 100-119): enrichment context for one
`tableFiles` entry. -/
structure TableCtx where
  game_id : String
  game_name : String
  manufacturer : String
  year : String
  players : String
  game_type : String
  theme : String
  designers : String
  ipdb_url : String
  ipdb_num : String
  authors : List String
  version : String
  tags_list : List String
  edition : String
  created_at : Int
  tf_index : Nat
  tf_gamefile_name : String
deriving DecidableEq

/-- The loop body of `_build_indexes` (lines 128-188): the context built for
table-file `tf` at position `idx` of game `g`. -/
def mkCtx (g : Game) (idx : Nat) (tf : TableFile) : TableCtx :=
  let base_name := g.name
  let manuf := g.manufacturer
  let year_s := jscalarToStr g.year
  let players_s := jscalarToStr g.players
  let theme_s :=
    match g.theme with
    | .items l => String.intercalate ", " l
    | .single s => s
  let designers_s :=
    match g.designers with
    | .items l => String.intercalate ", " l
    | .single _ => ""
  let ipdb_url := _norm_weblink g.ipdbUrl
  let ipdb_num := _parse_ipdb_num ipdb_url
  let edition := tf.edition
  let name_with_ed :=
    if edition ≠ "" ∧ containsCI base_name edition = false then base_name ++ " - " ++ edition
    else base_name
  let game_name :=
    if manuf ≠ "" ∧ year_s ≠ "" then name_with_ed ++ " (" ++ manuf ++ " " ++ year_s ++ ")"
    else name_with_ed
  let tags_list := tf.features.filter fun f => (pyStrip f != "") && !(_excluded_feature f)
  { game_id := if tf.gameId ≠ "" then tf.gameId else g.id
    game_name := game_name
    manufacturer := manuf
    year := year_s
    players := players_s
    game_type := g.gtype
    theme := theme_s
    designers := designers_s
    ipdb_url := ipdb_url
    ipdb_num := ipdb_num
    authors := tf.authors
    version := tf.version
    tags_list := tags_list
    edition := edition
    created_at := tf.createdAt
    tf_index := idx
    tf_gamefile_name := tf.gameFileName }

/-- Lookup in the association-list model of a Python dict: the most recently
inserted binding wins, matching dict assignment/overwrite semantics. -/
def dictGet {α : Type} (l : List (String × α)) (k : String) : Option α :=
  (l.find? fun p => p.1 == k).map Prod.snd

/-- `_build_indexes` (lines 121-189): map `tableFiles[].id` to its `TableCtx`.
Entries are prepended, so `dictGet` sees later (overwriting) insertions first. -/
def _build_indexes (vpsdb : List Game) : List (String × TableCtx) :=
  vpsdb.foldl
    (fun out g =>
      g.tableFiles.enum.foldl
        (fun out2 p =>
          if p.2.id = "" then out2 else (p.2.id, mkCtx g p.1 p.2) :: out2)
        out)
    []

/-- `_build_master_map` (lines 191-207): map `tableFiles[].id` to the owning
game id (`tf.game.id`, else the entry's id). -/
def _build_master_map (vpsdb : List Game) : List (String × String) :=
  vpsdb.foldl
    (fun out g =>
      g.tableFiles.foldl
        (fun out2 tf =>
          if tf.id = "" then out2
          else (tf.id, if tf.gameId ≠ "" then tf.gameId else g.id) :: out2)
        out)
    []

/-- `_build_gamefile_name` (lines 209-231). -/
def _build_gamefile_name (ctx : TableCtx) : String :=
  if ctx.tf_gamefile_name ≠ "" then ctx.tf_gamefile_name
  else
    let base := _sanitize_filename_part ctx.game_name
    let author_part := ctx.authors.headD ""
    let s :=
      if author_part ≠ "" then base ++ " " ++ author_part ++ " " ++ ctx.version
      else if ctx.version ≠ "" then base ++ " " ++ ctx.version
      else base
    let s2 := if ctx.tags_list.contains "MOD" then s ++ " MOD" else s
    if ctx.tags_list.contains "VR" then s2 ++ " VR" else s2

/-! ## Ordering (`_sort_key_for_ctx` and the `key` closure of `_generate_rows`) -/

/-- `ctx.game_name.split(" (", 1)[0]` on the character list: everything before
the first occurrence of the two-character sequence `" ("`. -/
def splitParenAux : List Char → List Char
  | [] => []
  | c :: rest =>
    if [' ', '('].isPrefixOf (c :: rest) then [] else c :: splitParenAux rest

/-- `game_name.split(" (", 1)[0]`. -/
def takeBeforeParen (s : String) : String :=
  String.mk (splitParenAux s.data)

/-- The sort-key 4-tuple `(prefix, -createdAt, editionRank, fileIndex)`. -/
abbrev SortKey := String × Int × Nat × Nat

/-- `_sort_key_for_ctx` (lines 233-236). -/
def _sort_key_for_ctx (ctx : TableCtx) : SortKey :=
  (takeBeforeParen ctx.game_name, -ctx.created_at, if ctx.edition = "" then 0 else 1, ctx.tf_index)

/-- The `key` closure of `_generate_rows` (lines 285-290): sort key of one
output row, `("", 0, 0, 9999)` when the row's identifier has no context. -/
def rowKey (cm : List (String × TableCtx)) (row : List String) : SortKey :=
  match dictGet cm ((row[(OUT_COLUMNS.indexOf "VPS-ID")]?).getD "") with
  | none => ("", 0, 0, 9999)
  | some ctx => _sort_key_for_ctx ctx

/-- Python tuple `<=` on sort keys (lexicographic; strings by code point). -/
def keyLe (a b : SortKey) : Prop :=
  pyStrLt a.1 b.1 = true ∨
    (a.1 = b.1 ∧
      (a.2.1 < b.2.1 ∨
        (a.2.1 = b.2.1 ∧
          (a.2.2.1 < b.2.2.1 ∨ (a.2.2.1 = b.2.2.1 ∧ a.2.2.2 ≤ b.2.2.2)))))

instance : DecidableRel keyLe := fun a b => by
  unfold keyLe
  infer_instance

/-- The total preorder by which `sorted(data, key=key)` orders the data rows. -/
def rowLe (cm : List (String × TableCtx)) (r1 r2 : List String) : Prop :=
  keyLe (rowKey cm r1) (rowKey cm r2)

instance (cm : List (String × TableCtx)) : DecidableRel (rowLe cm) := fun a b => by
  unfold rowLe
  infer_instance

/-! ## Field Enricher and Merge (`_generate_rows`, lines 238-292) -/

/-- The per-row body of `_generate_rows`' first loop (lines 242-280): produce
one 20-field output row from a repaired template row. -/
def enrichRow (cm : List (String × TableCtx)) (mm : List (String × String))
    (trow : List String) : List String :=
  let vps_id := (trow[(BASE_COLUMNS.indexOf "VPS-ID")]?).getD ""
  let wl_idx := BASE_COLUMNS.indexOf "WebLinkURL"
  match dictGet cm vps_id with
  | none =>
      let out := List.zip BASE_COLUMNS trow
      let base_out := BASE_COLUMNS.map fun c => (dictGet out c).getD ""
      base_out.take (wl_idx + 1) ++ [""] ++ base_out.drop (wl_idx + 1) ++ [vps_id, ""]
  | some ctx =>
      let master := (dictGet mm vps_id).getD ctx.game_id
      let wl2 := if master ≠ "" then _weblink2 master vps_id else ""
      let out := ("GameFileName", _build_gamefile_name ctx) ::
        ("Tags", String.intercalate ", " ctx.tags_list) ::
        ("GAMEVER", ctx.version) ::
        ("Author", String.intercalate ", " ctx.authors) ::
        ("DesignedBy", ctx.designers) ::
        ("IPDBNum", ctx.ipdb_num) ::
        ("WebLinkURL", ctx.ipdb_url) ::
        ("GameTheme", ctx.theme) ::
        ("GameType", ctx.game_type) ::
        ("NumPlayers", ctx.players) ::
        ("GameYear", ctx.year) ::
        ("Manufact", ctx.manufacturer) ::
        ("GameName", ctx.game_name) ::
        List.zip BASE_COLUMNS trow
      let base_out := BASE_COLUMNS.map fun c => (dictGet out c).getD ""
      base_out.take (wl_idx + 1) ++ [wl2] ++ base_out.drop (wl_idx + 1) ++ [vps_id, master]

/-- `_generate_rows` (lines 238-292): enrich every template row, then emit the
header followed by the data rows stably sorted by `rowLe` (Python's `sorted`
with the tuple key). -/
def _generate_rows (template_rows : List (List String)) (cm : List (String × TableCtx))
    (mm : List (String × String)) : List (List String) :=
  OUT_COLUMNS :: List.insertionSort (rowLe cm) (template_rows.map (enrichRow cm mm))

/-! ## Merge Engine I/O (`generate_output_csv`, `_read_template_rows`,
`_read_vpsdb`, `_write_csv`; `DataValidationError` from
custom_exceptions.py) -/

/-- `DataValidationError`: raised when expected data is missing or malformed. -/
structure DataValidationError where
  msg : String
deriving DecidableEq

/-- The cached `vpsdb.json` once parsed: either a JSON array of game entries
or some other JSON document (`isinstance(obj, list)` fails). -/
inductive VpsDoc where
  | arr (games : List Game)
  | nonArray
deriving DecidableEq

/-- The slice of the filesystem `generate_output_csv` touches: the two cached
inputs (`none` = file absent) and the destination file's current rows. -/
structure FS where
  template : Option (List (List String))
  vpsdb : Option VpsDoc
  output : Option (List (List String))
deriving DecidableEq

/-- `_read_template_rows` (lines 294-309): fail if the file is absent or has
no header row; otherwise repair every data row, silently skipping the rows
repair rejects (Python keeps `fixed` only when it is truthy). -/
def _read_template_rows (file : Option (List (List String))) :
    Except DataValidationError (List (List String)) :=
  match file with
  | none => .error ⟨"Missing template CSV"⟩
  | some rows =>
    match rows.head? with
    | none => .error ⟨"Template CSV has no header row."⟩
    | some h =>
        if h.isEmpty then .error ⟨"Template CSV has no header row."⟩
        else .ok (rows.tail.filterMap fun row =>
          (_repair_template_row row).filter fun f => !f.isEmpty)

/-- `_read_vpsdb` (lines 311-319): fail if the file is absent or not a JSON
array. -/
def _read_vpsdb (file : Option VpsDoc) : Except DataValidationError (List Game) :=
  match file with
  | none => .error ⟨"Missing vpsdb.json"⟩
  | some .nonArray => .error ⟨"vpsdb.json expected to be a JSON array."⟩
  | some (.arr games) => .ok games

/-- `ExportService.generate_output_csv` (lines 335-351) as explicit state
passing: the returned `FS` is the filesystem after the call and the `Option`
component is the raised `DataValidationError`, if any.  The destination file
is only assigned after both reads succeed, mirroring the statement order. -/
def generate_output_csv (fs : FS) : FS × Option DataValidationError :=
  match _read_template_rows fs.template with
  | .error e => (fs, some e)
  | .ok template_rows =>
    match _read_vpsdb fs.vpsdb with
    | .error e => (fs, some e)
    | .ok vpsdb =>
        let cm := _build_indexes vpsdb
        let mm := _build_master_map vpsdb
        let out_rows := _generate_rows template_rows cm mm
        ({ fs with output := some out_rows }, none)

/-- The destination-file contents a reader can observe while `_write_csv`
(lines 321-326) runs: `open(path, "w")` truncates the destination in place,
then the rows are written in order. -/
def _write_csv_states (old : List (List String)) (rows : List (List String)) :
    List (List (List String)) :=
  old :: (List.range (rows.length + 1)).map fun i => rows.take i

/-- The destination-file contents a reader can observe while
`atomic_write_bytes` (utils.py lines 34-40) runs: the data is written to a
temporary sibling (the destination keeps its old contents throughout, one
state per written chunk), then `os.replace` atomically installs the new
contents. -/
def atomic_write_bytes_states (old data : List (List String)) :
    List (List (List String)) :=
  List.replicate (data.length + 1) old ++ [data]

/-! ## Definitions written from the claims (for refutation / comparison) -/

/-- Modelled from the claim's words (C7): the file-name rule with its
"if any author exists" condition read as `ctx.authors ≠ []`. -/
def fileNameClaimed (ctx : TableCtx) : String :=
  if ctx.tf_gamefile_name ≠ "" then ctx.tf_gamefile_name
  else
    let base := _sanitize_filename_part ctx.game_name
    let s :=
      if ctx.authors ≠ [] then base ++ " " ++ ctx.authors.headD "" ++ " " ++ ctx.version
      else if ctx.version ≠ "" then base ++ " " ++ ctx.version
      else base
    let s2 := if ctx.tags_list.contains "MOD" then s ++ " MOD" else s
    if ctx.tags_list.contains "VR" then s2 ++ " VR" else s2

/-- Space-joined concatenation of a list of pieces. -/
def joinPieces : List String → String
  | [] => ""
  | [p] => p
  | p :: rest => p ++ " " ++ joinPieces rest

/-- Binary space-join treating `""` as the neutral element. -/
def joinSp (a b : String) : String :=
  if b = "" then a
  else if a = "" then b
  else a ++ " " ++ b

/-- Space-joined concatenation of the non-empty pieces, in order. -/
def joinNonempty (l : List String) : String :=
  joinPieces (l.filter fun s => s != "")

/-! ## Concrete inputs used by witnesses and counterexamples -/

/-- A well-formed 17-field template row. -/
def wfRow : List String :=
  ["f.vpx", "Game", "Mfg", "2020", "4", "EM", "Cat", "Th", "ipdb.org?id=5", "", "", "D", "A",
   "1.0", "rom", "t1", "abc12345"]

/-- A 17-field row whose identifier field carries a leading space: the stripped
value matches `VPS_ID_RE` but the field itself does not. -/
def paddedIdRow : List String :=
  ["f.vpx", "Game", "Mfg", "2020", "4", "EM", "Cat", "Th", "", "", "", "D", "A", "1.0", "rom",
   "t1", " abcdefgh"]

/-- A 19-field row exercising case B of row repair: field 16 holds a
non-identifier (`"junk"`), the extras are `" x "` and a valid identifier. -/
def extrasRow : List String :=
  ["f.vpx", "Game", "Mfg", "2020", "4", "EM", "Cat", "Th", "ipdb.org?id=5", "", "", "D", "A",
   "1.0", "rom", "t1", "junk", " x ", "abc12345"]

/-- Context used by the ordering scenario: name prefix `"Aaa"`. -/
def ctxA : TableCtx :=
  { game_id := "gX", game_name := "Aaa", manufacturer := "", year := "", players := "",
    game_type := "", theme := "", designers := "", ipdb_url := "", ipdb_num := "",
    authors := [], version := "", tags_list := [], edition := "", created_at := 5,
    tf_index := 0, tf_gamefile_name := "" }

/-- Context map holding only `ctxA` under id `"id1234567"`. -/
def cmEx : List (String × TableCtx) :=
  [("id1234567", ctxA)]

/-- Template row whose identifier has an enrichment context (`ctxA`). -/
def rowA : List String :=
  ["a.vpx", "Aaa", "", "", "", "", "", "", "", "", "", "", "", "", "", "", "id1234567"]

/-- Template row whose identifier has no enrichment context. -/
def rowB : List String :=
  ["b.vpx", "Bbb", "", "", "", "", "", "", "", "", "", "", "", "", "", "", "zz9999999"]

/-- The enriched output row for `rowA` (context present). -/
def enrichedA : List String :=
  ["Aaa", "Aaa", "", "", "", "", "", "", "",
   "https://virtualpinballspreadsheet.github.io/tables?game=gX&fileType=tables&fileId=id1234567",
   "", "", "", "", "", "", "", "id1234567", "id1234567", "gX"]

/-- The enriched output row for `rowB` (no context: pass-through plus two
empty inserted fields). -/
def enrichedB : List String :=
  ["b.vpx", "Bbb", "", "", "", "", "", "", "", "", "", "", "", "", "", "", "", "zz9999999",
   "zz9999999", ""]

/-- The metadata entry of the C6 example: base name `"Pinball Wizard"`. -/
def gPW : Game :=
  { id := "g1", name := "Pinball Wizard", manufacturer := "", year := .null, players := .null,
    gtype := "", theme := .single "", designers := .single "", ipdbUrl := "", tableFiles := [] }

/-- Table-file of the C6 example: edition `"Blue"`. -/
def tfBlue : TableFile :=
  { id := "abcd1234", gameId := "", edition := "Blue", gameFileName := "", authors := [],
    version := "", features := [], createdAt := 0 }

/-- The C7 example context: authors `["Smith"]`, version `"1.2"`, tags
`["VR"]`, display name `"Game (X 2020)"`. -/
def smithCtx : TableCtx :=
  { game_id := "g1", game_name := "Game (X 2020)", manufacturer := "X", year := "2020",
    players := "", game_type := "", theme := "", designers := "", ipdb_url := "", ipdb_num := "",
    authors := ["Smith"], version := "1.2", tags_list := ["VR"], edition := "", created_at := 0,
    tf_index := 0, tf_gamefile_name := "" }

/-- A context with one author whose name is the empty string: Python's
truthiness test `if author_part:` treats it as no author. -/
def emptyAuthorCtx : TableCtx :=
  { game_id := "", game_name := "Game", manufacturer := "", year := "", players := "",
    game_type := "", theme := "", designers := "", ipdb_url := "", ipdb_num := "",
    authors := [""], version := "1.2", tags_list := [], edition := "", created_at := 0,
    tf_index := 0, tf_gamefile_name := "" }

/-- A filesystem whose template CSV is absent (metadata fine). -/
def fsNoTemplate : FS :=
  { template := none, vpsdb := some (.arr []), output := some [["keep"]] }

/-- A filesystem with both inputs present and well-formed. -/
def fsGood : FS :=
  { template := some [BASE_COLUMNS, wfRow], vpsdb := some (.arr []), output := none }

/-! ## Order lemmas for the sort key -/

/-- Characters with equal code points are equal. -/
theorem char_eq_of_toNat_eq {a b : Char} (h : a.toNat = b.toNat) : a = b := by
  have h1 : Char.ofNat a.toNat = Char.ofNat b.toNat := congrArg _ h
  rwa [Char.ofNat_toNat, Char.ofNat_toNat] at h1

/-- Nothing is `pyStrLtL`-below the empty list. -/
theorem pyStrLtL_nil_right (x : List Char) : pyStrLtL x [] = false := by
  cases x <;> rfl

/-- `pyStrLtL` is transitive. -/
theorem pyStrLtL_trans :
    ∀ x y z : List Char, pyStrLtL x y = true → pyStrLtL y z = true → pyStrLtL x z = true := by
  intro x
  induction x with
  | nil =>
    intro y z h1 h2
    cases y with
    | nil => exact h2
    | cons b bs =>
      cases z with
      | nil => simp [pyStrLtL_nil_right] at h2
      | cons c cs => rfl
  | cons a as ih =>
    intro y z h1 h2
    cases y with
    | nil => simp [pyStrLtL_nil_right] at h1
    | cons b bs =>
      cases z with
      | nil => simp [pyStrLtL_nil_right] at h2
      | cons c cs =>
        simp only [pyStrLtL, Bool.or_eq_true, Bool.and_eq_true, decide_eq_true_eq,
          beq_iff_eq] at h1 h2 ⊢
        rcases h1 with h1 | ⟨e1, r1⟩ <;> rcases h2 with h2 | ⟨e2, r2⟩
        · exact Or.inl (Nat.lt_trans h1 h2)
        · exact Or.inl (by omega)
        · exact Or.inl (by omega)
        · exact Or.inr ⟨by omega, ih bs cs r1 r2⟩

/-- `pyStrLtL` trichotomy. -/
theorem pyStrLtL_trichotomy :
    ∀ x y : List Char, pyStrLtL x y = true ∨ x = y ∨ pyStrLtL y x = true := by
  intro x
  induction x with
  | nil =>
    intro y
    cases y with
    | nil => exact Or.inr (Or.inl rfl)
    | cons b bs => exact Or.inl rfl
  | cons a as ih =>
    intro y
    cases y with
    | nil => exact Or.inr (Or.inr rfl)
    | cons b bs =>
      rcases Nat.lt_trichotomy a.toNat b.toNat with hlt | heq | hgt
      · exact Or.inl (by simp [pyStrLtL, hlt])
      · rcases ih bs with h | h | h
        · exact Or.inl (by simp [pyStrLtL, heq, h])
        · exact Or.inr (Or.inl (by rw [char_eq_of_toNat_eq heq, h]))
        · exact Or.inr (Or.inr (by simp [pyStrLtL, heq.symm, h]))
      · exact Or.inr (Or.inr (by simp [pyStrLtL, hgt]))

/-- Strings with equal character data are equal (wrapper around `String.ext`). -/
theorem str_eq_of_data_eq {s t : String} (h : s.data = t.data) : s = t :=
  String.ext h

/-- `keyLe` is transitive. -/
theorem keyLe_trans : ∀ a b c : SortKey, keyLe a b → keyLe b c → keyLe a c := by
  intro a b c h1 h2
  rcases h1 with h1 | ⟨e1, n1⟩ <;> rcases h2 with h2 | ⟨e2, n2⟩
  · exact Or.inl (pyStrLtL_trans _ _ _ h1 h2)
  · exact Or.inl (by rw [pyStrLt] at h1 ⊢; rw [← e2]; exact h1)
  · exact Or.inl (by rw [pyStrLt] at h2 ⊢; rw [e1]; exact h2)
  · exact Or.inr ⟨e1.trans e2, by omega⟩

/-- `keyLe` is total. -/
theorem keyLe_total : ∀ a b : SortKey, keyLe a b ∨ keyLe b a := by
  intro a b
  rcases pyStrLtL_trichotomy a.1.data b.1.data with h | h | h
  · exact Or.inl (Or.inl h)
  · have e : a.1 = b.1 := str_eq_of_data_eq h
    have : (a.2.1 < b.2.1 ∨ a.2.1 = b.2.1 ∧
          (a.2.2.1 < b.2.2.1 ∨ a.2.2.1 = b.2.2.1 ∧ a.2.2.2 ≤ b.2.2.2)) ∨
        (b.2.1 < a.2.1 ∨ b.2.1 = a.2.1 ∧
          (b.2.2.1 < a.2.2.1 ∨ b.2.2.1 = a.2.2.1 ∧ b.2.2.2 ≤ a.2.2.2)) := by omega
    rcases this with h' | h'
    · exact Or.inl (Or.inr ⟨e, h'⟩)
    · exact Or.inr (Or.inr ⟨e.symm, h'⟩)
  · exact Or.inr (Or.inl h)

instance (cm : List (String × TableCtx)) : IsTrans (List String) (rowLe cm) :=
  ⟨fun _ _ _ h1 h2 => keyLe_trans _ _ _ h1 h2⟩

instance (cm : List (String × TableCtx)) : IsTotal (List String) (rowLe cm) :=
  ⟨fun _ _ => keyLe_total _ _⟩

/-! ## Lemmas about `pyStrip` -/

/-- `dropWhile` is the identity when no element satisfies the predicate. -/
theorem dropWhile_eq_self_of_all {p : Char → Bool} :
    ∀ l : List Char, (∀ c ∈ l, p c = false) → l.dropWhile p = l := by
  intro l h
  cases l with
  | nil => rfl
  | cons a as => simp [List.dropWhile_cons, h a (by simp)]

/-- If `dropWhile` keeps a cons cell, its head fails the predicate. -/
theorem head_false_of_dropWhile_eq_self {p : Char → Bool} {a : Char} {as : List Char}
    (h : (a :: as).dropWhile p = a :: as) : p a = false := by
  by_contra hb
  have hpa : p a = true := by simpa using hb
  rw [List.dropWhile_cons, if_pos hpa] at h
  have hle := (@List.dropWhile_suffix _ as p).length_le
  rw [h] at hle
  simp at hle

/-- `dropWhile` over an append whose left part is kept and non-empty. -/
theorem dropWhile_append_self {p : Char → Bool} {l : List Char} (r : List Char)
    (hl : l.dropWhile p = l) (hne : l ≠ []) : (l ++ r).dropWhile p = l ++ r := by
  cases l with
  | nil => exact absurd rfl hne
  | cons a as =>
    have hpa := head_false_of_dropWhile_eq_self hl
    simp [List.dropWhile_cons, hpa]

/-- `dropWhile` is idempotent. -/
theorem dropWhile_dropWhile {p : Char → Bool} :
    ∀ l : List Char, (l.dropWhile p).dropWhile p = l.dropWhile p := by
  intro l
  induction l with
  | nil => rfl
  | cons a as ih =>
    by_cases h : p a = true
    · simp [List.dropWhile_cons, h, ih]
    · have h' : p a = false := by simpa using h
      simp [List.dropWhile_cons, h']

/-- `stripChars` fixes exactly the lists kept by `dropWhile` on both ends. -/
theorem stripChars_eq_self_iff {l : List Char} :
    stripChars l = l ↔
      l.dropWhile Char.isWhitespace = l ∧
        l.reverse.dropWhile Char.isWhitespace = l.reverse := by
  unfold stripChars
  constructor
  · intro h
    have h1 := (@List.dropWhile_suffix _ l Char.isWhitespace).length_le
    have h2 := (@List.dropWhile_suffix _
      ((l.dropWhile Char.isWhitespace).reverse) Char.isWhitespace).length_le
    have lenh := congrArg List.length h
    simp only [List.length_reverse] at lenh h2
    have hfront : l.dropWhile Char.isWhitespace = l :=
      (List.dropWhile_suffix Char.isWhitespace).eq_of_length (by omega)
    refine ⟨hfront, ?_⟩
    rw [hfront] at h
    have h3 := congrArg List.reverse h
    simpa using h3
  · intro h
    rw [h.1, h.2, List.reverse_reverse]

/-- The stripped list is a prefix of the front-stripped list. -/
theorem stripChars_front_prefix (l : List Char) :
    stripChars l <+: l.dropWhile Char.isWhitespace := by
  have h : (l.dropWhile Char.isWhitespace).reverse.dropWhile Char.isWhitespace <:+
      (l.dropWhile Char.isWhitespace).reverse := List.dropWhile_suffix _
  have h2 := List.reverse_prefix.mpr h
  simpa [stripChars] using h2

/-- `stripChars` is idempotent. -/
theorem stripChars_stripChars (l : List Char) :
    stripChars (stripChars l) = stripChars l := by
  apply stripChars_eq_self_iff.mpr
  constructor
  · rcases hcs : stripChars l with _ | ⟨a, as⟩
    · rfl
    · have hpre := stripChars_front_prefix l
      rw [hcs] at hpre
      obtain ⟨t, ht⟩ := hpre
      have hm := @dropWhile_dropWhile Char.isWhitespace l
      rw [← ht] at hm
      have hws : Char.isWhitespace a = false :=
        @head_false_of_dropWhile_eq_self Char.isWhitespace a (as ++ t) hm
      simp [List.dropWhile_cons, hws]
  · have hrev : (stripChars l).reverse =
        (l.dropWhile Char.isWhitespace).reverse.dropWhile Char.isWhitespace := by
      simp [stripChars]
    rw [hrev]
    exact dropWhile_dropWhile _

/-- `pyStrip` is idempotent. -/
theorem pyStrip_idem (s : String) : pyStrip (pyStrip s) = pyStrip s := by
  apply String.ext
  exact stripChars_stripChars s.data

/-- Non-empty strings have non-empty data. -/
theorem str_ne_empty_data {s : String} (h : s ≠ "") : s.data ≠ [] := by
  intro hd
  exact h (String.ext (by simpa using hd))

/-- Appending to a non-empty string stays non-empty. -/
theorem str_append_ne_left {a : String} (b : String) (h : a ≠ "") : a ++ b ≠ "" := by
  intro he
  have hd := congrArg String.data he
  rw [String.data_append] at hd
  simp only [List.append_eq_nil] at hd
  exact str_ne_empty_data h hd.1

/-- Joining two stripped non-empty strings with a space is again stripped. -/
theorem pyStrip_append_pyStrip {a b : String} (ha : pyStrip a = a) (ha' : a ≠ "")
    (hb : pyStrip b = b) (hb' : b ≠ "") : pyStrip (a ++ " " ++ b) = a ++ " " ++ b := by
  have hda : stripChars a.data = a.data := congrArg String.data ha
  have hdb : stripChars b.data = b.data := congrArg String.data hb
  have hna : a.data ≠ [] := str_ne_empty_data ha'
  have hnb : b.data ≠ [] := str_ne_empty_data hb'
  have hx : (a ++ " " ++ b).data = a.data ++ (' ' :: b.data) := by
    simp [String.data_append]
  apply String.ext
  show stripChars (a ++ " " ++ b).data = (a ++ " " ++ b).data
  rw [hx]
  apply stripChars_eq_self_iff.mpr
  constructor
  · exact dropWhile_append_self _ (stripChars_eq_self_iff.mp hda).1 hna
  · have hrev : (a.data ++ (' ' :: b.data)).reverse =
        b.data.reverse ++ (' ' :: a.data.reverse) := by
      simp
    rw [hrev]
    exact dropWhile_append_self _ (stripChars_eq_self_iff.mp hdb).2 (by simpa using hnb)

/-- Identifier characters are not whitespace. -/
theorem ws_false_of_vpsIdChar {c : Char} (h : isVpsIdChar c = true) :
    c.isWhitespace = false := by
  by_contra hb
  have hw : c.isWhitespace = true := by simpa using hb
  simp only [Char.isWhitespace, Bool.or_eq_true, decide_eq_true_eq] at hw
  rcases hw with ((h1 | h1) | h1) | h1 <;> subst h1 <;> exact absurd h (by decide)

/-- A string matching `VPS_ID_RE` is already stripped. -/
theorem pyStrip_eq_self_of_vps {s : String} (h : VPS_ID_RE s = true) : pyStrip s = s := by
  have hall : ∀ c ∈ s.data, isVpsIdChar c = true := by
    have h2 := h
    simp only [VPS_ID_RE, Bool.and_eq_true, List.all_eq_true, decide_eq_true_eq] at h2
    exact h2.2
  have hws : ∀ c ∈ s.data, c.isWhitespace = false := fun c hc =>
    ws_false_of_vpsIdChar (hall c hc)
  apply String.ext
  show stripChars s.data = s.data
  apply stripChars_eq_self_iff.mpr
  exact ⟨dropWhile_eq_self_of_all _ hws,
    dropWhile_eq_self_of_all _ fun c hc => hws c (List.mem_reverse.mp hc)⟩

/-! ## Lemmas about the space-join -/

/-- `joinSp` with an empty right argument. -/
theorem joinSp_empty_right (a : String) : joinSp a "" = a := by
  simp [joinSp]

/-- `joinSp` with an empty left argument. -/
theorem joinSp_empty_left (b : String) : joinSp "" b = b := by
  by_cases hb : b = ""
  · simp [joinSp, hb]
  · simp [joinSp, hb]

/-- `joinSp` is associative. -/
theorem joinSp_assoc (a b c : String) : joinSp (joinSp a b) c = joinSp a (joinSp b c) := by
  by_cases hc : c = ""
  · subst hc
    rw [joinSp_empty_right, joinSp_empty_right]
  · by_cases hb : b = ""
    · subst hb
      rw [joinSp_empty_right, joinSp_empty_left]
    · by_cases ha : a = ""
      · subst ha
        rw [joinSp_empty_left, joinSp_empty_left]
      · have hbc : joinSp b c = b ++ " " ++ c := by simp [joinSp, hb, hc]
        have hab : joinSp a b = a ++ " " ++ b := by simp [joinSp, ha, hb]
        rw [hab, hbc]
        have h1 : a ++ (" " ++ b) ≠ "" := by
          rw [← String.append_assoc]
          exact str_append_ne_left _ (str_append_ne_left _ ha)
        have h2 : b ++ (" " ++ c) ≠ "" := by
          rw [← String.append_assoc]
          exact str_append_ne_left _ (str_append_ne_left _ hb)
        simp [joinSp, ha, hc, h1, h2, String.append_assoc]

/-- A space-join of non-empty pieces is non-empty. -/
theorem joinPieces_ne_empty :
    ∀ l : List String, (∀ p ∈ l, p ≠ "") → l ≠ [] → joinPieces l ≠ "" := by
  intro l h hne
  match l with
  | [p] => simpa [joinPieces] using h p (by simp)
  | p :: q :: rest =>
    have hp : p ≠ "" := h p (by simp)
    show p ++ " " ++ joinPieces (q :: rest) ≠ ""
    exact str_append_ne_left _ (str_append_ne_left _ hp)

/-- Prepending a piece to `joinNonempty` through `joinSp`. -/
theorem joinSp_joinNonempty_cons (a : String) (l : List String) :
    joinSp a (joinNonempty l) = joinNonempty (a :: l) := by
  unfold joinNonempty
  by_cases ha : a = ""
  · subst ha
    rw [joinSp_empty_left]
    simp [List.filter_cons]
  · have hfa : (a :: l).filter (fun s => s != "") = a :: l.filter (fun s => s != "") := by
      simp [List.filter_cons, ha]
    rw [hfa]
    rcases hfl : l.filter (fun s => s != "") with _ | ⟨r, rs⟩
    · simp [joinPieces, joinSp_empty_right]
    · have hne : joinPieces (r :: rs) ≠ "" := by
        apply joinPieces_ne_empty
        · intro p hp
          have hmem : p ∈ l.filter (fun s => s != "") := by rw [hfl]; exact hp
          simpa using List.of_mem_filter hmem
        · simp
      show joinSp a (joinPieces (r :: rs)) = joinPieces (a :: r :: rs)
      rw [show joinPieces (a :: r :: rs) = a ++ " " ++ joinPieces (r :: rs) from rfl]
      simp [joinSp, ha, hne]

/-- One repair-loop iteration equals a `joinSp` with the stripped token. -/
theorem fold_tag_token_eq {a : String} (t : String) (ha : pyStrip a = a) :
    _fold_tag_token a t = joinSp a (pyStrip t) := by
  have hdef : _fold_tag_token a t =
      if pyStrip t = "" then a
      else if a = "" then pyStrip t
      else pyStrip (a ++ " " ++ pyStrip t) := rfl
  rw [hdef]
  unfold joinSp
  by_cases ht : pyStrip t = ""
  · simp [ht]
  · by_cases ha0 : a = ""
    · simp [ht, ha0]
    · rw [if_neg ht, if_neg ha0, if_neg ht, if_neg ha0]
      exact pyStrip_append_pyStrip ha ha0 (pyStrip_idem t) ht

/-- `joinSp` of stripped strings is stripped. -/
theorem pyStrip_joinSp {a b : String} (ha : pyStrip a = a) (hb : pyStrip b = b) :
    pyStrip (joinSp a b) = joinSp a b := by
  unfold joinSp
  by_cases hbe : b = ""
  · simpa [hbe] using ha
  · by_cases hae : a = ""
    · simpa [hbe, hae] using hb
    · rw [if_neg hbe, if_neg hae]
      exact pyStrip_append_pyStrip ha hae hb hbe

/-- The case-B extras loop computes the space-join of the non-empty stripped
tokens, appended to the accumulator. -/
theorem foldl_fold_tag_token :
    ∀ (l : List String) (a : String), pyStrip a = a →
      l.foldl _fold_tag_token a = joinSp a (joinNonempty (l.map pyStrip)) := by
  intro l
  induction l with
  | nil =>
    intro a _
    simp [joinNonempty, joinPieces, joinSp_empty_right]
  | cons t rest ih =>
    intro a ha
    have step : _fold_tag_token a t = joinSp a (pyStrip t) := fold_tag_token_eq t ha
    have hstrip : pyStrip (joinSp a (pyStrip t)) = joinSp a (pyStrip t) :=
      pyStrip_joinSp ha (pyStrip_idem t)
    calc (t :: rest).foldl _fold_tag_token a
        = rest.foldl _fold_tag_token (joinSp a (pyStrip t)) := by
          rw [List.foldl_cons, step]
      _ = joinSp (joinSp a (pyStrip t)) (joinNonempty (rest.map pyStrip)) := ih _ hstrip
      _ = joinSp a (joinSp (pyStrip t) (joinNonempty (rest.map pyStrip))) :=
          joinSp_assoc _ _ _
      _ = joinSp a (joinNonempty (pyStrip t :: rest.map pyStrip)) := by
          rw [joinSp_joinNonempty_cons]
      _ = joinSp a (joinNonempty ((t :: rest).map pyStrip)) := by
          rw [List.map_cons]

/-! ## Dict and repair helper lemmas -/

/-- `BASE_COLUMNS` has 17 entries. -/
theorem BASE_COLUMNS_length : BASE_COLUMNS.length = 17 := rfl

/-- Reading back a dict built by zipping distinct keys with values returns the
values in key order. -/
theorem map_dictGet_zip :
    ∀ keys vals : List String, keys.Nodup → vals.length = keys.length →
      (keys.map fun c => (dictGet (List.zip keys vals) c).getD "") = vals := by
  intro keys
  induction keys with
  | nil =>
    intro vals _ hlen
    cases vals with
    | nil => rfl
    | cons a as => simp at hlen
  | cons k ks ih =>
    intro vals hnd hlen
    cases vals with
    | nil => simp at hlen
    | cons v vs =>
      have hkn : k ∉ ks := (List.nodup_cons.mp hnd).1
      have hnd' : ks.Nodup := (List.nodup_cons.mp hnd).2
      have hlen' : vs.length = ks.length := by simpa using hlen
      rw [List.zip_cons_cons, List.map_cons]
      have hhd : (dictGet ((k, v) :: List.zip ks vs) k).getD "" = v := by
        simp [dictGet, List.find?_cons_of_pos]
      rw [hhd]
      have htl : ∀ c ∈ ks,
          (dictGet ((k, v) :: List.zip ks vs) c).getD "" =
            (dictGet (List.zip ks vs) c).getD "" := by
        intro c hc
        have hck : ¬((fun p : String × String => p.1 == c) (k, v)) = true := by
          simp only [beq_iff_eq]
          intro he
          exact hkn (he ▸ hc)
        show (dictGet ((k, v) :: List.zip ks vs) c).getD "" =
          (dictGet (List.zip ks vs) c).getD ""
        unfold dictGet
        rw [List.find?_cons_of_neg (List.zip ks vs) hck]
      rw [List.map_congr_left htl, ih vs hnd' hlen']

/-- `_repair_caseA` either leaves the row alone or turns an 18-field row into
a 17-field row. -/
theorem caseA_eq_or (row : List String) :
    _repair_caseA row = row ∨ (row.length = 18 ∧ (_repair_caseA row).length = 17) := by
  unfold _repair_caseA
  split_ifs with h
  · have h18 : row.length = 18 := by
      have := h.1
      rwa [BASE_COLUMNS_length] at this
    right
    refine ⟨h18, ?_⟩
    simp [List.length_append, List.length_take, List.length_drop, h18]
  · left
    rfl

/-- Every retained row has 17 fields and a stripped field 16 matching
`VPS_ID_RE`. -/
theorem repair_some_props {row r : List String} (h : _repair_template_row row = some r) :
    r.length = 17 ∧ VPS_ID_RE (pyStrip ((r[16]?).getD "")) = true := by
  unfold _repair_template_row at h
  by_cases h1 : row.length < BASE_COLUMNS.length
  · rw [if_pos h1] at h
    cases h
  · rw [if_neg h1] at h
    cases hcb : _repair_caseB (_repair_caseA row) with
    | none =>
      simp only [hcb] at h
      cases h
    | some r2 =>
      simp only [hcb] at h
      by_cases h2 : r2.length = BASE_COLUMNS.length ∧
          VPS_ID_RE (pyStrip ((r2[16]?).getD "")) = true
      · rw [if_pos h2] at h
        injection h with he
        subst he
        exact ⟨by rw [h2.1, BASE_COLUMNS_length], h2.2⟩
      · rw [if_neg h2] at h
        cases h

/-- Every row kept by `_read_template_rows` came out of
`_repair_template_row`. -/
theorem mem_read_template {file : Option (List (List String))} {rows' : List (List String)}
    (h : _read_template_rows file = .ok rows') :
    ∀ r ∈ rows', ∃ raw, _repair_template_row raw = some r := by
  cases file with
  | none => simp [_read_template_rows] at h
  | some rows =>
    cases rows with
    | nil => simp [_read_template_rows] at h
    | cons hd tl =>
      have hdef : _read_template_rows (some (hd :: tl)) =
          if hd.isEmpty then Except.error ⟨"Template CSV has no header row."⟩
          else Except.ok (tl.filterMap fun row =>
            (_repair_template_row row).filter fun f => !f.isEmpty) := rfl
      rw [hdef] at h
      by_cases he : hd.isEmpty
      · rw [if_pos he] at h
        cases h
      · rw [if_neg he] at h
        injection h with he2
        subst he2
        intro r hr
        obtain ⟨raw, _, hraw⟩ := List.mem_filterMap.mp hr
        cases hrep : _repair_template_row raw with
        | none =>
          rw [hrep] at hraw
          cases hraw
        | some rr =>
          rw [hrep] at hraw
          simp only [Option.filter] at hraw
          split_ifs at hraw
          · injection hraw with he3
            subst he3
            exact ⟨raw, hrep⟩

/-- A 17-field row whose stripped field 16 matches the identifier pattern is
returned unchanged by repair. -/
theorem repair_of_17_valid {row : List String} (hlen : row.length = 17)
    (hvps : VPS_ID_RE (pyStrip ((row[16]?).getD "")) = true) :
    _repair_template_row row = some row := by
  have hA : _repair_caseA row = row := by
    unfold _repair_caseA
    rw [if_neg]
    intro hc
    have h1 := hc.1
    rw [BASE_COLUMNS_length] at h1
    omega
  have hB : _repair_caseB row = some row := by
    unfold _repair_caseB
    rw [if_neg]
    rw [BASE_COLUMNS_length]
    omega
  unfold _repair_template_row
  rw [if_neg (by rw [BASE_COLUMNS_length]; omega), hA]
  simp only [hB]
  rw [if_pos ⟨by rw [BASE_COLUMNS_length]; exact hlen, hvps⟩]

/-! ## Claims -/

/-- C10: `_repair_template_row` returns `none` (it neither raises nor pads)
for every row with fewer than 17 fields, and such under-length rows are
silently skipped and never reach the rows kept by `_read_template_rows`. -/
theorem c10_short_rows_dropped :
    (∀ row : List String, row.length < 17 → _repair_template_row row = none) ∧
    (∀ (file : Option (List (List String))) (rows' : List (List String)),
      _read_template_rows file = .ok rows' → ∀ r ∈ rows', ¬r.length < 17) := by
  constructor
  · intro row h
    unfold _repair_template_row
    rw [if_pos (by rw [BASE_COLUMNS_length]; exact h)]
  · intro file rows' h r hr
    obtain ⟨raw, hraw⟩ := mem_read_template h r hr
    have := (repair_some_props hraw).1
    omega

/-- Witness for C10 at the concrete two-field row. -/
theorem c10_witness : _repair_template_row ["a", "b"] = none :=
  c10_short_rows_dropped.1 ["a", "b"] (by decide)

/-- C4 counterexample: the 17-field row whose identifier field is
`" abcdefgh"` is retained by repair, yet its field at index 16 does not match
the identifier pattern (only its stripped value does). -/
theorem c4_counterexample :
    _repair_template_row paddedIdRow = some paddedIdRow ∧
    VPS_ID_RE ((paddedIdRow[16]?).getD "") = false := by
  constructor
  · decide
  · decide

/-- C4 (amended): every row repair retains has exactly 17 fields and a field
at index 16 whose whitespace-stripped value matches the identifier pattern;
rows violating either condition are dropped and never reach the kept rows. -/
theorem c4_repaired_rows_valid :
    (∀ row r : List String, _repair_template_row row = some r →
      r.length = 17 ∧ VPS_ID_RE (pyStrip ((r[16]?).getD "")) = true) ∧
    (∀ (file : Option (List (List String))) (rows' : List (List String)),
      _read_template_rows file = .ok rows' →
      ∀ r ∈ rows', r.length = 17 ∧ VPS_ID_RE (pyStrip ((r[16]?).getD "")) = true) := by
  constructor
  · intro row r h
    exact repair_some_props h
  · intro file rows' h r hr
    obtain ⟨raw, hraw⟩ := mem_read_template h r hr
    exact repair_some_props hraw

/-- Witness for C4 at the concrete well-formed row. -/
theorem c4_witness :
    wfRow.length = 17 ∧ VPS_ID_RE (pyStrip ((wfRow[16]?).getD "")) = true :=
  c4_repaired_rows_valid.1 wfRow wfRow (by decide)

/-- C9: repair is the identity on 17-field rows whose field 16 matches the
identifier pattern, and more generally retaining a row is idempotent: repair
of a retained row returns that row again. -/
theorem c9_repair_idempotent :
    (∀ row : List String, row.length = 17 → VPS_ID_RE ((row[16]?).getD "") = true →
      _repair_template_row row = some row) ∧
    (∀ row r : List String, _repair_template_row row = some r →
      _repair_template_row r = some r) := by
  constructor
  · intro row hlen hid
    exact repair_of_17_valid hlen (by rw [pyStrip_eq_self_of_vps hid]; exact hid)
  · intro row r h
    obtain ⟨hlen, hvps⟩ := repair_some_props h
    exact repair_of_17_valid hlen hvps

/-- Witness for C9 at the concrete well-formed row. -/
theorem c9_witness : _repair_template_row wfRow = some wfRow :=
  c9_repair_idempotent.1 wfRow (by decide) (by decide)

/-- C6: the composed display name is the base name, suffixed with
`" - " + edition` exactly when the edition is non-empty and not a
case-insensitive substring of the base name, then with
`" (manufacturer year)"` exactly when both manufacturer and year are
non-empty; the `gPW`/`tfBlue` example composes to
`"Pinball Wizard - Blue"`. -/
theorem c6_composed_display_name :
    (∀ (g : Game) (idx : Nat) (tf : TableFile),
      (mkCtx g idx tf).game_name =
        (let nwe :=
          if tf.edition ≠ "" ∧ containsCI g.name tf.edition = false
          then g.name ++ " - " ++ tf.edition
          else g.name
        if g.manufacturer ≠ "" ∧ jscalarToStr g.year ≠ ""
        then nwe ++ " (" ++ g.manufacturer ++ " " ++ jscalarToStr g.year ++ ")"
        else nwe)) ∧
    (mkCtx gPW 0 tfBlue).game_name = "Pinball Wizard - Blue" := by
  constructor
  · intro g idx tf
    rfl
  · decide

/-- C7 counterexample: for the context with `authors = [""]` and
`version = "1.2"`, the claim's rule ("if any author exists, append space +
first author + space + version") yields `"Game  1.2"`, but the code's
truthiness test on the first author yields `"Game 1.2"`. -/
theorem c7_counterexample :
    _build_gamefile_name emptyAuthorCtx = "Game 1.2" ∧
    fileNameClaimed emptyAuthorCtx = "Game  1.2" ∧
    _build_gamefile_name emptyAuthorCtx ≠ fileNameClaimed emptyAuthorCtx := by
  refine ⟨by decide, by decide, by decide⟩

/-- C7 (amended): the file name is the explicit override when non-empty;
otherwise the `/`-sanitised display name, then — when the *first author's
name is non-empty* — space + first author + space + version (keeping the
trailing space when the version is empty), else space + version only when the
version is non-empty; then `" MOD"` and `" VR"` per the tag list.  The claim's
example evaluates to `"Game (X 2020) Smith 1.2 VR"`. -/
theorem c7_file_name_rule :
    (∀ ctx : TableCtx,
      _build_gamefile_name ctx =
        if ctx.tf_gamefile_name ≠ "" then ctx.tf_gamefile_name
        else
          (let base := _sanitize_filename_part ctx.game_name
          let s :=
            if ctx.authors.headD "" ≠ "" then
              base ++ " " ++ ctx.authors.headD "" ++ " " ++ ctx.version
            else if ctx.version ≠ "" then base ++ " " ++ ctx.version
            else base
          let s2 := if ctx.tags_list.contains "MOD" then s ++ " MOD" else s
          if ctx.tags_list.contains "VR" then s2 ++ " VR" else s2)) ∧
    _build_gamefile_name smithCtx = "Game (X 2020) Smith 1.2 VR" := by
  constructor
  · intro ctx
    rfl
  · decide

/-- C3 counterexample: during `_write_csv` with previous contents
`[["old"]]` and new rows `[["a"], ["b"]]`, a reader can observe the
intermediate destination contents `[["a"]]`, which is neither the complete
previous file nor the complete new one — the output write is not atomic. -/
theorem c3_counterexample :
    [["a"]] ∈ _write_csv_states [["old"]] [["a"], ["b"]] ∧
    [["a"]] ≠ [["old"]] ∧ [["a"]] ≠ [["a"], ["b"]] := by
  refine ⟨by decide, by decide, by decide⟩

/-- C3 (amended): `atomic_write_bytes` (used for the cached downloads, not for
the output CSV) is atomic: every observable destination state during it is
either the complete old contents or the complete new contents. -/
theorem c3_atomic_write_bytes_atomic (old data s : List (List String))
    (hs : s ∈ atomic_write_bytes_states old data) : s = old ∨ s = data := by
  unfold atomic_write_bytes_states at hs
  rcases List.mem_append.mp hs with h | h
  · exact Or.inl (List.eq_of_mem_replicate h)
  · exact Or.inr (List.mem_singleton.mp h)

/-- Witness for C3's amended theorem at a concrete write. -/
theorem c3_witness :
    ([["o"]] : List (List String)) = [["o"]] ∨ ([["o"]] : List (List String)) = [["n"]] :=
  c3_atomic_write_bytes_atomic [["o"]] [["n"]] [["o"]] (by decide)

/-- C8: a repaired template row whose identifier has no enrichment context is
passed through unchanged, with an empty second web-link field inserted right
after the first web-link field (index 8), followed by the row's own
identifier and an empty owning-identifier field. -/
theorem c8_no_context_passthrough (cm : List (String × TableCtx))
    (mm : List (String × String)) (raw trow : List String)
    (hrep : _repair_template_row raw = some trow)
    (hctx : dictGet cm ((trow[16]?).getD "") = none) :
    enrichRow cm mm trow =
      trow.take 9 ++ [""] ++ trow.drop 9 ++ [(trow[16]?).getD "", ""] := by
  have hlen : trow.length = 17 := (repair_some_props hrep).1
  have hidx : BASE_COLUMNS.indexOf "VPS-ID" = 16 := rfl
  have hwl : BASE_COLUMNS.indexOf "WebLinkURL" = 8 := rfl
  simp only [enrichRow, hidx, hwl, hctx]
  rw [map_dictGet_zip BASE_COLUMNS trow (by decide) (by rw [hlen, BASE_COLUMNS_length])]

/-- Witness for C8 at the concrete context-less row. -/
theorem c8_witness :
    enrichRow [] [] rowB = rowB.take 9 ++ [""] ++ rowB.drop 9 ++ ["zz9999999", ""] := by
  have h := c8_no_context_passthrough [] [] rowB rowB (by decide) (by decide)
  exact h.trans (by decide)

/-- C1 (amended): the output starts with the fixed 20-column header, which is
never part of the sort; the remaining rows are a permutation of the enriched
data rows ordered by the key `(name-prefix, -createdAt, editionRank,
position)`; rows whose identifier has no context are grouped under the key
`("", 0, 0, 9999)` and therefore sort *first* — before every row whose
name-prefix is non-empty — not last. -/
theorem c1_output_ordering (t : List (List String)) (cm : List (String × TableCtx))
    (mm : List (String × String)) :
    (_generate_rows t cm mm).head? = some OUT_COLUMNS ∧
    (_generate_rows t cm mm).tail.Perm (t.map (enrichRow cm mm)) ∧
    List.Sorted (rowLe cm) (_generate_rows t cm mm).tail ∧
    (∀ row : List String, dictGet cm ((row[17]?).getD "") = none →
      rowKey cm row = ("", 0, 0, 9999)) ∧
    (∀ k : SortKey, k.1 ≠ "" →
      keyLe ("", 0, 0, 9999) k ∧ ¬keyLe k ("", 0, 0, 9999)) := by
  refine ⟨rfl, ?_, ?_, ?_, ?_⟩
  · exact List.perm_insertionSort (rowLe cm) _
  · exact List.sorted_insertionSort (rowLe cm) _
  · intro row h
    have hidx : OUT_COLUMNS.indexOf "VPS-ID" = 17 := rfl
    simp only [rowKey, hidx, h]
  · intro k hk
    have hlt : pyStrLt "" k.1 = true := by
      unfold pyStrLt
      rcases hd : k.1.data with _ | ⟨c, cs⟩
      · exact absurd (String.ext (by simp [hd])) hk
      · rfl
    refine ⟨Or.inl hlt, ?_⟩
    intro hcon
    rcases hcon with h1 | ⟨h1, _⟩
    · rw [show pyStrLt k.1 "" = pyStrLtL k.1.data [] from rfl, pyStrLtL_nil_right] at h1
      cases h1
    · exact hk h1

/-- C1 counterexample: with `rowA` enriched by context `ctxA` (name prefix
`"Aaa"`) and `rowB` lacking any context, the output places the context-less
row first and the context-bearing row last — context-less rows do not sort
last. -/
theorem c1_counterexample :
    _generate_rows [rowA, rowB] cmEx [] = [OUT_COLUMNS, enrichedB, enrichedA] ∧
    dictGet cmEx ((enrichedB[17]?).getD "") = none ∧
    dictGet cmEx ((enrichedA[17]?).getD "") = some ctxA := by
  refine ⟨by decide, by decide, by decide⟩

/-- Witness for C1's amended theorem at the concrete two-row run. -/
theorem c1_witness :
    (_generate_rows [rowA, rowB] cmEx []).head? = some OUT_COLUMNS ∧
    rowKey cmEx enrichedB = ("", 0, 0, 9999) ∧
    (keyLe ("", 0, 0, 9999) ("Aaa", -5, 0, 0) ∧ ¬keyLe ("Aaa", -5, 0, 0) ("", 0, 0, 9999)) := by
  have h := c1_output_ordering [rowA, rowB] cmEx []
  exact ⟨h.1, h.2.2.2.1 enrichedB (by decide), h.2.2.2.2 ("Aaa", -5, 0, 0) (by decide)⟩


/-- C5: for a row still longer than 17 fields after the manufacturer repair
step, with `cand` the trimmed last extra: if `cand` matches the identifier
pattern, the tags field becomes the space-join, in order, of the non-empty
stripped pieces — existing tags, then the prior index-16 content when
non-empty and not itself a valid identifier, then the remaining extras — and
field 16 becomes `cand`; otherwise the row is rejected. -/
theorem c5_extras_folded (row : List String)
    (h17 : 17 < (_repair_caseA row).length) :
    (VPS_ID_RE (pyStrip (((_repair_caseA row).drop 17).getLastD "")) = true →
      _repair_template_row row =
        some ((((_repair_caseA row).take 17).set 15
            (joinNonempty ([pyStrip (((_repair_caseA row)[15]?).getD "")] ++
              (if pyStrip (((_repair_caseA row)[16]?).getD "") ≠ "" ∧
                  VPS_ID_RE (pyStrip (((_repair_caseA row)[16]?).getD "")) = false
                then [pyStrip (((_repair_caseA row)[16]?).getD "")] else []) ++
              ((_repair_caseA row).drop 17).dropLast.map pyStrip))).set 16
          (pyStrip (((_repair_caseA row).drop 17).getLastD "")))) ∧
    (VPS_ID_RE (pyStrip (((_repair_caseA row).drop 17).getLastD "")) = false →
      _repair_template_row row = none) := by
  rcases caseA_eq_or row with hA | hpair
  case inr =>
    rw [hpair.2] at h17
    exact absurd h17 (by omega)
  rw [hA] at h17 ⊢
  have hcond : BASE_COLUMNS.length < row.length := by
    rw [BASE_COLUMNS_length]
    omega
  have hnotshort : ¬row.length < BASE_COLUMNS.length := by
    rw [BASE_COLUMNS_length]
    omega
  have hBif0 : _repair_caseB row =
      if BASE_COLUMNS.length < row.length then
        (if VPS_ID_RE (pyStrip ((row.drop BASE_COLUMNS.length).getLastD "")) = true then
          some (((row.take BASE_COLUMNS.length).set 15
              (((row.drop BASE_COLUMNS.length).dropLast).foldl _fold_tag_token
                (if pyStrip (((row.take BASE_COLUMNS.length)[16]?).getD "") ≠ "" ∧
                    VPS_ID_RE (pyStrip (((row.take BASE_COLUMNS.length)[16]?).getD "")) = false
                  then
                    (if pyStrip (((row.take BASE_COLUMNS.length)[15]?).getD "") ≠ "" then
                      pyStrip (pyStrip (((row.take BASE_COLUMNS.length)[15]?).getD "") ++ " " ++
                        pyStrip (((row.take BASE_COLUMNS.length)[16]?).getD ""))
                    else pyStrip (((row.take BASE_COLUMNS.length)[16]?).getD ""))
                  else pyStrip (((row.take BASE_COLUMNS.length)[15]?).getD "")))).set 16
            (pyStrip ((row.drop BASE_COLUMNS.length).getLastD "")))
        else none)
      else some row := rfl
  rw [if_pos hcond] at hBif0
  rw [BASE_COLUMNS_length] at hBif0
  have h15 : ((row.take 17)[15]?) = row[15]? := by
    rw [List.getElem?_take, if_pos (by omega : 15 < 17)]
  have h16 : ((row.take 17)[16]?) = row[16]? := by
    rw [List.getElem?_take, if_pos (by omega : 16 < 17)]
  rw [h15, h16] at hBif0
  have ht0 : pyStrip (pyStrip ((row[15]?).getD "")) = pyStrip ((row[15]?).getD "") :=
    pyStrip_idem _
  have hf6 : pyStrip (pyStrip ((row[16]?).getD "")) = pyStrip ((row[16]?).getD "") :=
    pyStrip_idem _
  constructor
  · intro hv
    rw [if_pos hv] at hBif0
    have hshift0 :
        (if pyStrip ((row[16]?).getD "") ≠ "" ∧
            VPS_ID_RE (pyStrip ((row[16]?).getD "")) = false
          then
            (if pyStrip ((row[15]?).getD "") ≠ "" then
              pyStrip (pyStrip ((row[15]?).getD "") ++ " " ++ pyStrip ((row[16]?).getD ""))
            else pyStrip ((row[16]?).getD ""))
          else pyStrip ((row[15]?).getD "")) =
        joinSp (pyStrip ((row[15]?).getD ""))
          (if pyStrip ((row[16]?).getD "") ≠ "" ∧
              VPS_ID_RE (pyStrip ((row[16]?).getD "")) = false
            then pyStrip ((row[16]?).getD "") else "") := by
      by_cases hc : pyStrip ((row[16]?).getD "") ≠ "" ∧
          VPS_ID_RE (pyStrip ((row[16]?).getD "")) = false
      · rw [if_pos hc, if_pos hc]
        by_cases ht : pyStrip ((row[15]?).getD "") ≠ ""
        · rw [if_pos ht, pyStrip_append_pyStrip ht0 ht hf6 hc.1]
          simp [joinSp, hc.1, ht]
        · rw [if_neg ht, not_not.mp ht, joinSp_empty_left]
      · rw [if_neg hc, if_neg hc, joinSp_empty_right]
    rw [hshift0] at hBif0
    have hfoptstrip :
        pyStrip (if pyStrip ((row[16]?).getD "") ≠ "" ∧
            VPS_ID_RE (pyStrip ((row[16]?).getD "")) = false
          then pyStrip ((row[16]?).getD "") else "") =
        (if pyStrip ((row[16]?).getD "") ≠ "" ∧
            VPS_ID_RE (pyStrip ((row[16]?).getD "")) = false
          then pyStrip ((row[16]?).getD "") else "") := by
      split_ifs
      · exact hf6
      · rfl
    rw [foldl_fold_tag_token ((row.drop 17).dropLast) _
        (pyStrip_joinSp ht0 hfoptstrip)] at hBif0
    rw [joinSp_assoc, joinSp_joinNonempty_cons, joinSp_joinNonempty_cons] at hBif0
    have hlist :
        joinNonempty (pyStrip ((row[15]?).getD "") ::
          (if pyStrip ((row[16]?).getD "") ≠ "" ∧
              VPS_ID_RE (pyStrip ((row[16]?).getD "")) = false
            then pyStrip ((row[16]?).getD "") else "") ::
          ((row.drop 17).dropLast).map pyStrip) =
        joinNonempty ([pyStrip ((row[15]?).getD "")] ++
          (if pyStrip ((row[16]?).getD "") ≠ "" ∧
              VPS_ID_RE (pyStrip ((row[16]?).getD "")) = false
            then [pyStrip ((row[16]?).getD "")] else []) ++
          ((row.drop 17).dropLast).map pyStrip) := by
      by_cases hc : pyStrip ((row[16]?).getD "") ≠ "" ∧
          VPS_ID_RE (pyStrip ((row[16]?).getD "")) = false
      · rw [if_pos hc, if_pos hc]
        rfl
      · rw [if_neg hc, if_neg hc]
        simp [joinNonempty, List.filter_cons]
    rw [hlist] at hBif0
    unfold _repair_template_row
    rw [if_neg hnotshort, hA]
    simp only [hBif0]
    rw [if_pos ?_]
    constructor
    · rw [List.length_set, List.length_set, List.length_take, BASE_COLUMNS_length]
      omega
    · rw [List.getElem?_set_self (by rw [List.length_set, List.length_take]; omega)]
      simp only [Option.getD_some]
      rw [pyStrip_idem]
      exact hv
  · intro hv
    rw [if_neg (by rw [hv]; simp)] at hBif0
    unfold _repair_template_row
    rw [if_neg hnotshort, hA]
    simp only [hBif0]

/-- Witness for C5 at the concrete 19-field row. -/
theorem c5_witness :
    _repair_template_row extrasRow =
      some ["f.vpx", "Game", "Mfg", "2020", "4", "EM", "Cat", "Th", "ipdb.org?id=5", "", "",
        "D", "A", "1.0", "rom", "t1 junk x", "abc12345"] := by
  have h := (c5_extras_folded extrasRow (by decide)).1 (by decide)
  exact h.trans (by decide)

/-- `generate_output_csv` on an absent template file. -/
theorem gen_none (v : Option VpsDoc) (o : Option (List (List String))) :
    generate_output_csv ⟨none, v, o⟩ =
      (⟨none, v, o⟩, some ⟨"Missing template CSV"⟩) := rfl

/-- `generate_output_csv` on an empty template file. -/
theorem gen_nil (v : Option VpsDoc) (o : Option (List (List String))) :
    generate_output_csv ⟨some [], v, o⟩ =
      (⟨some [], v, o⟩, some ⟨"Template CSV has no header row."⟩) := rfl

/-- `generate_output_csv` on a template whose header row is empty. -/
theorem gen_cons_empty (hd : List String) (tl : List (List String)) (v : Option VpsDoc)
    (o : Option (List (List String))) (he : hd.isEmpty = true) :
    generate_output_csv ⟨some (hd :: tl), v, o⟩ =
      (⟨some (hd :: tl), v, o⟩, some ⟨"Template CSV has no header row."⟩) := by
  have h1 : _read_template_rows (some (hd :: tl)) =
      Except.error ⟨"Template CSV has no header row."⟩ := by
    have e : _read_template_rows (some (hd :: tl)) =
        if hd.isEmpty then Except.error ⟨"Template CSV has no header row."⟩
        else Except.ok (tl.filterMap fun row =>
          (_repair_template_row row).filter fun f => !f.isEmpty) := rfl
    rw [e, if_pos he]
  simp only [generate_output_csv]
  rw [h1]

/-- `generate_output_csv` on a template with a non-empty header row. -/
theorem gen_cons_ok (hd : List String) (tl : List (List String)) (v : Option VpsDoc)
    (o : Option (List (List String))) (he : hd.isEmpty = false) :
    generate_output_csv ⟨some (hd :: tl), v, o⟩ =
      match _read_vpsdb v with
      | .error e => (⟨some (hd :: tl), v, o⟩, some e)
      | .ok vpsdb =>
          (⟨some (hd :: tl), v, some (_generate_rows
            (tl.filterMap fun row => (_repair_template_row row).filter fun f => !f.isEmpty)
            (_build_indexes vpsdb) (_build_master_map vpsdb))⟩, none) := by
  have h1 : _read_template_rows (some (hd :: tl)) =
      Except.ok (tl.filterMap fun row =>
        (_repair_template_row row).filter fun f => !f.isEmpty) := by
    have e : _read_template_rows (some (hd :: tl)) =
        if hd.isEmpty then Except.error ⟨"Template CSV has no header row."⟩
        else Except.ok (tl.filterMap fun row =>
          (_repair_template_row row).filter fun f => !f.isEmpty) := rfl
    rw [e, if_neg (by simp [he])]
  simp only [generate_output_csv]
  rw [h1]

/-- `_read_vpsdb` on an absent metadata file. -/
theorem vpsdb_none : _read_vpsdb none = .error ⟨"Missing vpsdb.json"⟩ := rfl

/-- `_read_vpsdb` on a non-array metadata document. -/
theorem vpsdb_nonArray :
    _read_vpsdb (some .nonArray) = .error ⟨"vpsdb.json expected to be a JSON array."⟩ := rfl

/-- `_read_vpsdb` on an array metadata document. -/
theorem vpsdb_arr (gs : List Game) : _read_vpsdb (some (.arr gs)) = .ok gs := rfl

/-- C2: `generate_output_csv` reports a typed `DataValidationError` exactly
when the template file is absent or headerless, or the metadata file is
absent or not a JSON array; in every such case the filesystem — in particular
the destination file — is left unchanged; and a malformed data row never
raises: the row is dropped and the run's outcome and output are unchanged. -/
theorem c2_fatal_validation (fs : FS) :
    ((generate_output_csv fs).2.isSome ↔
      fs.template = none ∨
      (∃ rows, fs.template = some rows ∧ (rows.head? = none ∨ rows.head? = some [])) ∨
      fs.vpsdb = none ∨ fs.vpsdb = some VpsDoc.nonArray) ∧
    ((generate_output_csv fs).2.isSome → (generate_output_csv fs).1 = fs) ∧
    (∀ header data badRow, _repair_template_row badRow = none →
      fs.template = some (header :: (data ++ [badRow])) →
      (generate_output_csv fs).2 =
        (generate_output_csv { fs with template := some (header :: data) }).2 ∧
      (generate_output_csv fs).1.output =
        (generate_output_csv { fs with template := some (header :: data) }).1.output) := by
  obtain ⟨t, v, o⟩ := fs
  cases t with
  | none =>
    refine ⟨?_, ?_, ?_⟩
    · rw [gen_none]
      simp
    · intro _
      rw [gen_none]
    · intro header data badRow hbad hT
      exact absurd hT (by simp)
  | some rows =>
    cases rows with
    | nil =>
      refine ⟨?_, ?_, ?_⟩
      · rw [gen_nil]
        simp
      · intro _
        rw [gen_nil]
      · intro header data badRow hbad hT
        simp at hT
    | cons hd tl =>
      by_cases he : hd.isEmpty = true
      · refine ⟨?_, ?_, ?_⟩
        · rw [gen_cons_empty hd tl v o he]
          have hhd : hd = [] := List.isEmpty_iff.mp he
          subst hhd
          simp
        · intro _
          rw [gen_cons_empty hd tl v o he]
        · intro header data badRow hbad hT
          injection hT with hT2
          injection hT2 with h1 h2
          subst h1
          subst h2
          exact ⟨by rw [gen_cons_empty _ _ _ _ he, gen_cons_empty _ _ _ _ he],
            by rw [gen_cons_empty _ _ _ _ he, gen_cons_empty _ _ _ _ he]⟩
      · have he' : hd.isEmpty = false := by simpa using he
        have hhd : hd ≠ [] := by
          intro hx
          rw [hx] at he'
          simp at he'
        cases v with
        | none =>
          refine ⟨?_, ?_, ?_⟩
          · rw [gen_cons_ok hd tl none o he', vpsdb_none]
            simp
          · intro _
            rw [gen_cons_ok hd tl none o he', vpsdb_none]
          · intro header data badRow hbad hT
            injection hT with hT2
            injection hT2 with h1 h2
            subst h1
            subst h2
            exact ⟨by rw [gen_cons_ok _ _ _ _ he', gen_cons_ok _ _ _ _ he', vpsdb_none],
              by rw [gen_cons_ok _ _ _ _ he', gen_cons_ok _ _ _ _ he', vpsdb_none]⟩
        | some doc =>
          cases doc with
          | nonArray =>
            refine ⟨?_, ?_, ?_⟩
            · rw [gen_cons_ok hd tl _ o he', vpsdb_nonArray]
              simp
            · intro _
              rw [gen_cons_ok hd tl _ o he', vpsdb_nonArray]
            · intro header data badRow hbad hT
              injection hT with hT2
              injection hT2 with h1 h2
              subst h1
              subst h2
              exact ⟨by rw [gen_cons_ok _ _ _ _ he', gen_cons_ok _ _ _ _ he', vpsdb_nonArray],
                by rw [gen_cons_ok _ _ _ _ he', gen_cons_ok _ _ _ _ he', vpsdb_nonArray]⟩
          | arr gs =>
            refine ⟨?_, ?_, ?_⟩
            · rw [gen_cons_ok hd tl _ o he', vpsdb_arr]
              constructor
              · intro hfalse
                simp at hfalse
              · intro hr
                rcases hr with h1 | ⟨rows2, h1, h2 | h2⟩ | h1 | h1
                · cases h1
                · injection h1 with h1'
                  subst h1'
                  simp at h2
                · injection h1 with h1'
                  subst h1'
                  simp at h2
                  exact (hhd h2).elim
                · cases h1
                · cases h1
            · intro habs
              rw [gen_cons_ok hd tl _ o he', vpsdb_arr] at habs
              simp at habs
            · intro header data badRow hbad hT
              injection hT with hT2
              injection hT2 with h1 h2
              subst h1
              subst h2
              have hfb : ((_repair_template_row badRow).filter fun f => !f.isEmpty) = none := by
                rw [hbad]
                rfl
              have hdrop : List.filterMap (fun row =>
                  (_repair_template_row row).filter fun f => !f.isEmpty) (data ++ [badRow]) =
                  List.filterMap (fun row =>
                    (_repair_template_row row).filter fun f => !f.isEmpty) data := by
                rw [List.filterMap_append]
                simp [List.filterMap_cons, hfb]
              refine ⟨?_, ?_⟩
              · rw [gen_cons_ok _ _ _ _ he', gen_cons_ok _ _ _ _ he', vpsdb_arr]
              · rw [gen_cons_ok _ _ _ _ he', gen_cons_ok _ _ _ _ he', vpsdb_arr]
                simp only [hdrop]

/-- Witness for C2: an absent template file yields a validation failure with
the filesystem untouched, and appending an unrepairable row leaves the
outcome unchanged. -/
theorem c2_witness :
    (generate_output_csv fsNoTemplate).2.isSome = true ∧
    (generate_output_csv fsNoTemplate).1 = fsNoTemplate ∧
    (generate_output_csv ⟨some [BASE_COLUMNS, ["short"]], some (.arr []), none⟩).2 =
      (generate_output_csv ⟨some [BASE_COLUMNS], some (.arr []), none⟩).2 := by
  have h1 := c2_fatal_validation fsNoTemplate
  have hsome : (generate_output_csv fsNoTemplate).2.isSome := h1.1.mpr (Or.inl rfl)
  have h2 := (c2_fatal_validation ⟨some [BASE_COLUMNS, ["short"]], some (.arr []), none⟩).2.2
    BASE_COLUMNS [] ["short"] (by decide) rfl
  exact ⟨hsome, h1.2.1 hsome, h2.1⟩
